import Mathlib

/-!
Verification of the multi-tenant backend core: tenant resolution and
isolation enforcement (core/middleware.py, core/utils.py, core/models.py)
and checkout/payment consistency (payments/views.py, payments/models.py,
products/models.py). Python code is shallowly embedded: Django querysets
become list filters over an explicit database state, the Redis cache is an
association list, thread-local storage is explicit state, money
(Python Decimal with exact arithmetic) is modelled as Rat, and external
effects (JWT decoding, the Stripe gateway, the downstream handler) are
oracles passed in as data.
-/

namespace Backend

/-- Tenant record, from core/models.py class Tenant: unique name, unique
domain, activation flag. Business metadata and timestamps are elided
(no claim mentions them). -/
structure Tenant where
  id : Nat
  name : String
  domain : String
  is_active : Bool
deriving DecidableEq

/-- Value stored in the Redis cache under a tenant lookup key: either a
pickled Tenant object snapshot, or the literal False used by the
middleware as a negative ("confirmed no match") marker. -/
inductive CacheVal where
  | hit (t : Tenant)
  | negative
deriving DecidableEq

/-- The Redis cache, as an association list from keys to stored values; a
key absent from the list is a cache miss (cache.get returns None). TTLs
are not modelled: any reachable cache content is represented as a state. -/
def Cache := List (String × CacheVal)

instance : DecidableEq Cache := by unfold Cache; infer_instance

/-- cache.get: first binding for the key, none on a miss. -/
def cacheGet (c : Cache) (k : String) : Option CacheVal :=
  (List.find? (fun p => p.fst == k) c).map Prod.snd

/-- cache.set: overwrite the binding for the key. -/
def cacheSet (c : Cache) (k : String) (v : CacheVal) : Cache :=
  (k, v) :: List.filter (fun p => p.fst != k) c

/-- The tenant directory: the Tenant table, listed in the order the
database returns rows (Tenant.Meta orders by name), so that .first() on a
filtered queryset is List.find? on this list. -/
def Directory := List Tenant

/-- Result of running jwt.decode on the Authorization header value in
core/middleware.py _get_tenant_from_jwt. The cryptographic verification
itself is external, so its outcome is data: notBearer when the header does
not start with "Bearer ", invalid for ExpiredSignatureError,
InvalidTokenError or any other exception raised while decoding, and valid
with the optional "tenant" claim on success. -/
inductive TokenDecode where
  | notBearer
  | invalid
  | valid (tenantClaim : Option String)
deriving DecidableEq

/-- Inbound HTTP request, with the fields the middleware reads.
authorization is none when no Authorization header is present, otherwise
the decode outcome of the bearer token. ratelimited is the verdict of the
django-ratelimit per-IP check in _apply_rate_limiting (true = the
Ratelimited exception is raised). -/
structure Request where
  path : String
  host : String
  authorization : Option TokenDecode
  xTenant : Option String
  ratelimited : Bool
deriving DecidableEq

/-- request.get_host().split(':')[0] — strip the port from the host:
everything before the first colon, the whole host when there is none. -/
def hostNoPort (host : String) : String :=
  ⟨host.data.takeWhile (fun ch => ch ≠ ':')⟩

/-- core/middleware.py _get_tenant_by_name: consult the cache under
tenant:name:..., on a miss query the directory for an active tenant of
that name, caching the result (False as negative marker). Returns the
(tenant, detection_method) pair of the Python code plus the new cache. -/
def getTenantByName (db : Directory) (c : Cache) (tenant_name : String) :
    (Option Tenant × Option String) × Cache :=
  let cache_key := "tenant:name:" ++ tenant_name
  match cacheGet c cache_key with
  | some (.hit t) => ((some t, some "header"), c)
  | some .negative => ((none, none), c)
  | none =>
    match List.find? (fun t => t.name == tenant_name && t.is_active) db with
    | some t => ((some t, some "header"), cacheSet c cache_key (.hit t))
    | none => ((none, none), cacheSet c cache_key .negative)

/-- parts[0] if len(parts) >= 2 else None, over host.split('.'): the
split has at least two parts exactly when the host contains a dot, and
its first part is everything before the first dot. -/
def subdomainOf (host : String) : Option String :=
  if host.data.contains '.' then
    some ⟨host.data.takeWhile (fun ch => ch ≠ '.')⟩
  else none

/-- The Q(domain=host, is_active=True) | Q(name=subdomain, is_active=True)
filter of _get_tenant_by_domain; the name clause is only added when the
subdomain is truthy and not the reserved www label. -/
def domainQueryMatch (host : String) (sub : Option String) (t : Tenant) : Bool :=
  (t.domain == host && t.is_active) ||
  (match sub with
   | some s => s != "" && s != "www" && t.name == s && t.is_active
   | none => false)

/-- core/middleware.py _get_tenant_by_domain: cache under
tenant:domain:..., on a miss query by exact domain or by leading
subdomain label against the tenant name, active tenants only. -/
def getTenantByDomain (db : Directory) (c : Cache) (host : String) :
    (Option Tenant × Option String) × Cache :=
  let cache_key := "tenant:domain:" ++ host
  match cacheGet c cache_key with
  | some (.hit t) => ((some t, some "domain"), c)
  | some .negative => ((none, none), c)
  | none =>
    let subdomain := subdomainOf host
    match List.find? (domainQueryMatch host subdomain) db with
    | some t => ((some t, some "domain"), cacheSet c cache_key (.hit t))
    | none => ((none, none), cacheSet c cache_key .negative)

/-- core/middleware.py _get_tenant_from_jwt: a non-Bearer header, any
decode exception (expired, malformed, bad signature, or other — all are
caught), or a missing/empty tenant claim yields (None, None) without
touching the cache; a valid claim is looked up under tenant:jwt:... by
name or domain, active tenants only. -/
def getTenantFromJwt (db : Directory) (c : Cache) (tok : TokenDecode) :
    (Option Tenant × Option String) × Cache :=
  match tok with
  | .notBearer => ((none, none), c)
  | .invalid => ((none, none), c)
  | .valid none => ((none, none), c)
  | .valid (some ident) =>
    if ident == "" then ((none, none), c)
    else
      let cache_key := "tenant:jwt:" ++ ident
      match cacheGet c cache_key with
      | some (.hit t) => ((some t, some "jwt"), c)
      | some .negative => ((none, none), c)
      | none =>
        match List.find? (fun t => (t.name == ident || t.domain == ident) && t.is_active) db with
        | some t => ((some t, some "jwt"), cacheSet c cache_key (.hit t))
        | none => ((none, none), cacheSet c cache_key .negative)

/-- Steps 3 of TenantMiddleware.__call__ (lines 64-81): try the JWT when
an Authorization header is present, then the X-Tenant header when truthy,
then the host/subdomain, short-circuiting on the first tenant found, and
threading the cache through the lookups. -/
def resolveTenant (db : Directory) (c : Cache) (req : Request) :
    (Option Tenant × Option String) × Cache :=
  let r1 :=
    match req.authorization with
    | some tok => getTenantFromJwt db c tok
    | none => ((none, none), c)
  let r2 :=
    match r1.fst.fst with
    | some _ => r1
    | none =>
      match req.xTenant with
      | some n => if n == "" then ((none, none), r1.snd) else getTenantByName db r1.snd n
      | none => ((none, none), r1.snd)
  match r2.fst.fst with
  | some _ => r2
  | none => getTenantByDomain db r2.snd (hostNoPort req.host)

/-- The thread-local storage of core/utils.py: each attribute is either
deleted (none) or set to a value (some). get_current_tenant treats a
deleted attribute and an attribute set to None alike, but
clear_thread_locals deletes the attributes, so the two states differ. -/
structure ThreadLocals where
  tenant : Option (Option Tenant)
  request : Option Request
deriving DecidableEq

/-- core/utils.py clear_thread_locals: delete both attributes. -/
def clear_thread_locals (_ : ThreadLocals) : ThreadLocals := ⟨none, none⟩

/-- core/utils.py set_current_tenant. -/
def set_current_tenant (l : ThreadLocals) (t : Option Tenant) : ThreadLocals :=
  { l with tenant := some t }

/-- core/utils.py set_current_request. -/
def set_current_request (l : ThreadLocals) (r : Request) : ThreadLocals :=
  { l with request := some r }

/-- core/utils.py get_current_tenant: getattr(..., given tenant, None). -/
def get_current_tenant (l : ThreadLocals) : Option Tenant :=
  l.tenant.getD none

/-- An HTTP response as the claims observe it: status, the
machine-readable "code" field of the JSON body when present, and the
response headers. -/
structure HttpResponse where
  status : Nat
  code : Option String
  headers : List (String × String)
deriving DecidableEq

/-- Outcome of invoking the downstream handler (get_response): a normal
response, or an exception propagating out of it. -/
inductive DownstreamResult where
  | ok (resp : HttpResponse)
  | raises
deriving DecidableEq

/-- Middleware-visible mutable state: the shared cache and the thread
locals of the current worker. -/
structure MwState where
  cache : Cache
  locals : ThreadLocals
deriving DecidableEq

/-- How one middleware invocation ends: a response returned to the client,
or an exception propagating past the middleware. -/
inductive MwOutcome where
  | response (r : HttpResponse)
  | raised
deriving DecidableEq

/-- TenantMiddleware.EXEMPT_PATHS. -/
def EXEMPT_PATHS : List String :=
  ["/admin/", "/static/", "/media/", "/health/", "/api/auth/", "/api/schema/", "/api/docs/"]

/-- TenantMiddleware._is_exempt_path: any(path.startswith(e)), with
startswith expressed over the character lists of the strings. -/
def isExemptPath (path : String) : Bool :=
  EXEMPT_PATHS.any (fun e => List.isPrefixOf e.data path.data)

/-- TenantMiddleware._add_security_headers: nosniff and DENY always, the
X-Tenant-ID header when a tenant is in thread-local storage, and the
transport-security and content-security headers outside DEBUG. -/
def add_security_headers (debugMode : Bool) (l : ThreadLocals) (r : HttpResponse) : HttpResponse :=
  let hs := r.headers ++ [("X-Content-Type-Options", "nosniff"), ("X-Frame-Options", "DENY")]
  let hs :=
    match get_current_tenant l with
    | some t => hs ++ [("X-Tenant-ID", toString t.id)]
    | none => hs
  let hs :=
    if !debugMode then
      hs ++ [("Strict-Transport-Security", "max-age=31536000; includeSubDomains"),
             ("Content-Security-Policy", "default-src \x27self\x27")]
    else hs
  { r with headers := hs }

/-- TenantMiddleware.__call__, from core/middleware.py lines 39-140,
with the downstream handler passed as an oracle. Control flow follows the
source exactly: store the request in thread locals; exempt paths bind no
tenant and call the handler with no try/finally around it (cleanup runs
only on its normal return); rate limiting answers 429 and cleans up;
unresolved tenants answer 403 tenant_not_found and clean up; a resolved
tenant whose is_active flag is false answers 403 tenant_inactive and
cleans up; otherwise the tenant is bound and the handler runs inside
try/finally, with security headers added to a normal response and thread
locals cleared on both return and exception. -/
def tenantMiddlewareCall (db : Directory) (debugMode : Bool)
    (handler : Request → Option Tenant → DownstreamResult)
    (st : MwState) (req : Request) : MwOutcome × MwState :=
  let l0 := set_current_request st.locals req
  if isExemptPath req.path then
    let l1 := set_current_tenant l0 none
    match handler req none with
    | .ok resp => (.response resp, ⟨st.cache, clear_thread_locals l1⟩)
    | .raises => (.raised, ⟨st.cache, l1⟩)
  else if req.ratelimited then
    (.response ⟨429, some "rate_limit_exceeded", []⟩, ⟨st.cache, clear_thread_locals l0⟩)
  else
    match resolveTenant db st.cache req with
    | ((none, _), c1) =>
      (.response ⟨403, some "tenant_not_found", []⟩, ⟨c1, clear_thread_locals l0⟩)
    | ((some t, _), c1) =>
      if !t.is_active then
        (.response ⟨403, some "tenant_inactive", []⟩, ⟨c1, clear_thread_locals l0⟩)
      else
        let l2 := set_current_tenant l0 (some t)
        match handler req (some t) with
        | .ok resp =>
          (.response (add_security_headers debugMode l2 resp), ⟨c1, clear_thread_locals l2⟩)
        | .raises => (.raised, ⟨c1, clear_thread_locals l2⟩)

/-- Product record, from products/models.py class Product, keeping the
fields the checkout and reconciliation code reads. Prices are exact
decimals (Python Decimal), modelled as Rat; the discount date window is a
pair of optional instants compared against an abstract clock. -/
structure Product where
  id : Nat
  tenant : Nat
  name : String
  sku : String
  short_description : String
  description : String
  image_url : String
  price : ℚ
  discount_type : String
  discount_value : ℚ
  discount_start_date : Option Nat
  discount_end_date : Option Nat
  stock : Nat
  track_inventory : Bool
  allow_backorders : Bool
  is_active : Bool
  total_sales : Nat
deriving DecidableEq

/-- products/models.py Product.final_price: the discounted price, guarded
by the discount type, a positive discount value and the date window, and
floored at Decimal 0.01. -/
def final_price (now : Nat) (p : Product) : ℚ :=
  if p.discount_type == "none" || p.discount_value ≤ 0 then p.price
  else if (match p.discount_start_date with | some s => decide (now < s) | none => false) then p.price
  else if (match p.discount_end_date with | some e => decide (e < now) | none => false) then p.price
  else if p.discount_type == "percentage" then
    max (p.price - p.price * (p.discount_value / 100)) (1 / 100 : ℚ)
  else if p.discount_type == "fixed" then
    max (p.price - p.discount_value) (1 / 100 : ℚ)
  else p.price

/-- products/models.py Product.increment_sales: add to the sales counter
and decrease stock by the quantity; the Python max(0, stock - quantity)
is exactly truncated Nat subtraction. -/
def increment_sales (p : Product) (quantity : Nat) : Product :=
  { p with total_sales := p.total_sales + quantity, stock := p.stock - quantity }

/-- products/models.py Product.can_purchase (exposed on the model; the
checkout never calls it): active, and either untracked inventory, stock
on hand, or backorders allowed. -/
def can_purchase (p : Product) : Bool :=
  if !p.is_active then false
  else if p.track_inventory && p.stock ≤ 0 && !p.allow_backorders then false
  else true

/-- Booking record, from payments/models.py class Booking. status is the
string drawn from STATUS_CHOICES; paid_at is the nullable payment
timestamp against the abstract clock. -/
structure Booking where
  id : Nat
  tenant : Nat
  customer_email : String
  customer_name : String
  status : String
  subtotal : ℚ
  shipping_cost : ℚ
  total : ℚ
  is_gift : Bool
  gift_message : String
  stripe_checkout_session_id : String
  stripe_payment_intent_id : String
  paid_at : Option Nat
  ip_address : Option String
deriving DecidableEq

/-- payments/models.py Booking.mark_as_paid: set status PAID and stamp
paid_at with the current time, unconditionally. -/
def mark_as_paid (now : Nat) (b : Booking) : Booking :=
  { b with status := "PAID", paid_at := some now }

/-- payments/models.py Booking.mark_as_failed: set status FAILED,
unconditionally — the method carries no guard on the current status. -/
def mark_as_failed (b : Booking) : Booking :=
  { b with status := "FAILED" }

/-- BookingItem record, from payments/models.py class BookingItem: the
order line with its immutable snapshot of the product at purchase time;
the product reference is nullable (on_delete SET_NULL). -/
structure BookingItem where
  id : Nat
  tenant : Nat
  booking : Nat
  product : Option Nat
  product_name : String
  product_sku : String
  variant_name : String
  unit_price : ℚ
  quantity : Nat
  line_total : ℚ
  product_image : String
deriving DecidableEq

/-- payments/models.py BookingItem.save: recompute line_total as
unit_price * quantity on every write, before persisting. -/
def bookingItemSave (it : BookingItem) : BookingItem :=
  { it with line_total := it.unit_price * (it.quantity : ℚ) }

/-- The persistent store the payment code touches, plus a counter of
confirmation emails handed to the notifier (fire-and-forget side
effect), so that replays can be observed. -/
structure Db where
  products : List Product
  bookings : List Booking
  booking_items : List BookingItem
  emails_sent : Nat
deriving DecidableEq

/-- Persist a product row by primary key. -/
def updateProduct (ps : List Product) (p : Product) : List Product :=
  ps.map (fun q => if q.id == p.id then p else q)

/-- Persist a booking row by primary key. -/
def updateBooking (bs : List Booking) (b : Booking) : List Booking :=
  bs.map (fun x => if x.id == b.id then b else x)

/-- One entry of the validated items list of CreateCheckoutSerializer. -/
structure CartItem where
  product_id : Nat
  quantity : Nat
  variant : String
deriving DecidableEq

/-- The validated_data of CreateCheckoutSerializer. -/
structure CheckoutData where
  items : List CartItem
  customer_email : String
  customer_name : String
  is_gift : Bool
  gift_message : String
deriving DecidableEq

/-- payments/serializers.py validation: at least one item, and each
quantity within the declared bounds 1..100 (email format is not
modelled). -/
def serializerValid (d : CheckoutData) : Bool :=
  !d.items.isEmpty && d.items.all (fun i => 1 ≤ i.quantity && i.quantity ≤ 100)

/-- The Product.objects.get(id=..., tenant=tenant, is_active=True) lookup
of payments/views.py create_checkout step 1. -/
def productGet (db : Db) (tenant : Tenant) (pid : Nat) : Option Product :=
  List.find? (fun p => p.id == pid && p.tenant == tenant.id && p.is_active) db.products

/-- One entry of the items_data list built in create_checkout step 1. -/
structure ItemData where
  product : Product
  quantity : Nat
  variant : String
  unit_price : ℚ
  line_total : ℚ
deriving DecidableEq

/-- The two early-return error responses of the validation loop. -/
inductive CheckoutErr where
  | productNotFound (pid : Nat)
  | insufficientStock (name : String)
deriving DecidableEq

/-- The per-item validation and pricing loop of create_checkout step 1:
load the product scoped to the tenant and active (404 on failure), check
tracked stock against the requested quantity (400 on failure), then price
the line with the backend final_price and accumulate the subtotal. -/
def validateItems (db : Db) (tenant : Tenant) (now : Nat) :
    List CartItem → Except CheckoutErr (List ItemData × ℚ)
  | [] => .ok ([], 0)
  | item :: rest =>
    match productGet db tenant item.product_id with
    | none => .error (.productNotFound item.product_id)
    | some product =>
      if product.track_inventory && product.stock < item.quantity then
        .error (.insufficientStock product.name)
      else
        let unit_price := final_price now product
        let line_total := unit_price * (item.quantity : ℚ)
        match validateItems db tenant now rest with
        | .error e => .error e
        | .ok (ds, sub) =>
          .ok ({ product := product, quantity := item.quantity, variant := item.variant,
                 unit_price := unit_price, line_total := line_total } :: ds,
               line_total + sub)

/-- Outcome of the stripe.checkout.Session.create call: the session id and
hosted URL on success, a raised stripe.error.StripeError, or any other
exception raised inside the transaction. -/
inductive GatewayOutcome where
  | success (session_id : String) (url : String)
  | stripeError
  | otherError
deriving DecidableEq

/-- Response of create_checkout as the claims observe it: the 201 body,
or an error status with its error-field string, or the 400 carrying the
serializer errors. -/
inductive CheckoutResponse where
  | created (checkout_url : String) (booking_id : Nat) (session_id : String)
  | err (status : Nat) (error : String)
  | invalidData
deriving DecidableEq

/-- Fresh primary key for a new booking row. -/
def nextBookingId (db : Db) : Nat :=
  (db.bookings.map Booking.id).foldr max 0 + 1

/-- Fresh primary key base for new booking-item rows. -/
def nextItemId (db : Db) : Nat :=
  (db.booking_items.map BookingItem.id).foldr max 0 + 1

/-- payments/views.py BookingViewSet.create_checkout, lines 55-219. The
whole body after validation runs inside transaction.atomic, so writes are
staged and only reach the database on the normal return of the block: the
early validation returns happen before any write, and an exception from
the gateway call (or any other exception) rolls every staged write back
before the matching except branch builds the 500 response. The gateway
outcome and the clock are oracles. -/
def create_checkout (db : Db) (tenantOpt : Option Tenant) (payload : CheckoutData)
    (now : Nat) (gw : GatewayOutcome) (ip : Option String) : CheckoutResponse × Db :=
  match tenantOpt with
  | none => (.err 400 "Tenant not found", db)
  | some tenant =>
    if !serializerValid payload then (.invalidData, db)
    else
      match validateItems db tenant now payload.items with
      | .error (.productNotFound pid) =>
        (.err 404 ("Product " ++ toString pid ++ " not found or inactive"), db)
      | .error (.insufficientStock nm) =>
        (.err 400 ("Insufficient stock for " ++ nm), db)
      | .ok (items_data, subtotal) =>
        let shipping_cost : ℚ := if subtotal > 250 then 0 else 25
        let total := subtotal + shipping_cost
        let bid := nextBookingId db
        let booking : Booking :=
          { id := bid, tenant := tenant.id,
            customer_email := payload.customer_email,
            customer_name := payload.customer_name,
            status := "UNPAID",
            subtotal := subtotal, shipping_cost := shipping_cost, total := total,
            is_gift := payload.is_gift, gift_message := payload.gift_message,
            stripe_checkout_session_id := "", stripe_payment_intent_id := "",
            paid_at := none, ip_address := ip }
        let base := nextItemId db
        let newItems := (items_data.enum).map (fun d =>
          bookingItemSave
            { id := base + d.fst, tenant := tenant.id, booking := bid,
              product := some d.snd.product.id,
              product_name := d.snd.product.name,
              product_sku := d.snd.product.sku,
              variant_name := d.snd.variant,
              unit_price := d.snd.unit_price, quantity := d.snd.quantity,
              line_total := d.snd.line_total,
              product_image := d.snd.product.image_url })
        match gw with
        | .stripeError => (.err 500 "Payment processing error. Please try again.", db)
        | .otherError => (.err 500 "An error occurred. Please try again.", db)
        | .success sid url =>
          let booking2 := { booking with stripe_checkout_session_id := sid }
          (.created url bid sid,
           { db with bookings := db.bookings ++ [booking2],
                     booking_items := db.booking_items ++ newItems })

/-- payments/views.py BookingViewSet.get_queryset: none() without a bound
tenant, otherwise the bookings of that tenant, narrowed by the email
query parameter when truthy. -/
def bookingGetQueryset (db : Db) (tenantOpt : Option Tenant)
    (emailParam : Option String) : List Booking :=
  match tenantOpt with
  | none => []
  | some tenant =>
    let qs := db.bookings.filter (fun b => b.tenant == tenant.id)
    match emailParam with
    | some e => if e == "" then qs else qs.filter (fun b => b.customer_email == e)
    | none => qs

/-- The fields of the checkout.session.completed event object that
_handle_checkout_session_completed reads. -/
structure StripeSession where
  metadata_booking_id : Option Nat
  payment_intent : String
deriving DecidableEq

/-- payments/views.py _handle_checkout_session_completed: discard when the
metadata lacks a booking id or no booking row matches; otherwise assign
status PAID and the payment-intent id, call mark_as_paid and save, hand a
confirmation email to the notifier, and for every item of the booking
whose product reference is live and tracks inventory, call
increment_sales with the purchased quantity. No branch checks whether the
booking is already PAID. -/
def handle_checkout_session_completed (db : Db) (s : StripeSession) (now : Nat) : Db :=
  match s.metadata_booking_id with
  | none => db
  | some bid =>
    match List.find? (fun b => b.id == bid) db.bookings with
    | none => db
    | some booking =>
      let booking := { booking with stripe_payment_intent_id := s.payment_intent }
      let booking := mark_as_paid now booking
      let db1 : Db := { db with bookings := updateBooking db.bookings booking,
                                emails_sent := db.emails_sent + 1 }
      let itms := db1.booking_items.filter (fun it => it.booking == bid)
      itms.foldl (fun acc it =>
        match it.product with
        | none => acc
        | some pid =>
          match List.find? (fun p => p.id == pid) acc.products with
          | none => acc
          | some p =>
            if p.track_inventory then
              { acc with products := updateProduct acc.products (increment_sales p it.quantity) }
            else acc) db1

/-- The field of the payment_intent.payment_failed event object that
_handle_payment_failed reads. -/
structure PaymentIntentEvent where
  id : String
deriving DecidableEq

/-- payments/views.py _handle_payment_failed: find the booking whose
stored stripe_payment_intent_id matches the event, and when found call
mark_as_failed on it — with no condition on its current status. -/
def handle_payment_failed (db : Db) (pi : PaymentIntentEvent) : Db :=
  match List.find? (fun b => b.stripe_payment_intent_id == pi.id) db.bookings with
  | none => db
  | some booking =>
    { db with bookings := updateBooking db.bookings (mark_as_failed booking) }

/-! Concrete states and requests used to evaluate the model at the
scenarios of the specification. -/

/-- The inactive tenant of the spec scenario: acme, domain
acme.example.com, is_active false. -/
def acmeT : Tenant := { id := 1, name := "acme", domain := "acme.example.com", is_active := false }

/-- A non-exempt API request arriving on the inactive tenant's domain,
with no bearer token and no X-Tenant header. -/
def reqAcme : Request :=
  { path := "/api/products/", host := "acme.example.com", authorization := none,
    xTenant := none, ratelimited := false }

/-- A downstream handler that returns a plain 200 response. -/
def handlerOk : Request → Option Tenant → DownstreamResult := fun _ _ => .ok ⟨200, none, []⟩

/-- A downstream handler that raises. -/
def handlerRaises : Request → Option Tenant → DownstreamResult := fun _ _ => .raises

/-- A request to an exempt path (the health endpoint). -/
def reqHealth : Request :=
  { path := "/health/", host := "x.com", authorization := none, xTenant := none,
    ratelimited := false }

/-- A fresh worker state: empty cache, cleared thread locals. -/
def stEmpty : MwState := ⟨[], ⟨none, none⟩⟩

/-- A worker state whose cache still holds a stale snapshot of the acme
tenant under its domain key: the only way the resolver can hand an
inactive tenant object to the middleware. -/
def stStale : MwState :=
  ⟨[("tenant:domain:acme.example.com", CacheVal.hit acmeT)], ⟨none, none⟩⟩

/-- An active tenant reachable through a bearer-token claim "tok". -/
def tokT : Tenant := { id := 2, name := "tok", domain := "tok.com", is_active := true }

/-- An active tenant reachable through the X-Tenant header value "hdr". -/
def hdrT : Tenant := { id := 3, name := "hdr", domain := "hdr.com", is_active := true }

/-- A request carrying both a valid token resolving to tokT and a
conflicting X-Tenant header naming hdrT. -/
def reqTokHdr : Request :=
  { path := "/api/x/", host := "hdr.com", authorization := some (.valid (some "tok")),
    xTenant := some "hdr", ratelimited := false }

/-- The active tenant that owns the checkout scenarios. -/
def t1 : Tenant := { id := 1, name := "t1", domain := "t1.com", is_active := true }

/-- Product 7 of the spec scenario: price 50.00, stock 10, tracked
inventory, no discount. -/
def widget : Product :=
  { id := 7, tenant := 1, name := "Widget", sku := "W7", short_description := "",
    description := "", image_url := "", price := 50, discount_type := "none",
    discount_value := 0, discount_start_date := none, discount_end_date := none,
    stock := 10, track_inventory := true, allow_backorders := false,
    is_active := true, total_sales := 0 }

/-- A product priced 125.00, so that two units hit a subtotal of exactly
250. -/
def p125 : Product := { widget with id := 9, price := 125 }

/-- A tracked product with stock 1 that allows backorders. -/
def pBackorder : Product := { widget with id := 11, stock := 1, allow_backorders := true }

/-- Store holding only product 7. -/
def db100 : Db := { products := [widget], bookings := [], booking_items := [], emails_sent := 0 }

/-- Store holding only the 125.00 product. -/
def db250 : Db := { db100 with products := [p125] }

/-- Store holding only the backorderable product. -/
def dbBackorder : Db := { db100 with products := [pBackorder] }

/-- Cart of the spec scenario: two units of product 7. -/
def pay100 : CheckoutData :=
  { items := [⟨7, 2, ""⟩], customer_email := "a@b.c", customer_name := "",
    is_gift := false, gift_message := "" }

/-- Cart hitting subtotal exactly 250: two units of the 125.00 product. -/
def pay250 : CheckoutData := { pay100 with items := [⟨9, 2, ""⟩] }

/-- Cart asking for two units of the stock-1 backorderable product. -/
def payBackorder : CheckoutData := { pay100 with items := [⟨11, 2, ""⟩] }

/-- The items_data the validation loop computes for pay100. -/
def scenItemsData : List ItemData :=
  [{ product := widget, quantity := 2, variant := "", unit_price := 50, line_total := 100 }]

/-- An UNPAID booking for two widgets, as create_checkout persists it. -/
def bookingUnpaid : Booking :=
  { id := 3, tenant := 1, customer_email := "a@b.c", customer_name := "",
    status := "UNPAID", subtotal := 100, shipping_cost := 25, total := 125,
    is_gift := false, gift_message := "", stripe_checkout_session_id := "cs_1",
    stripe_payment_intent_id := "", paid_at := none, ip_address := none }

/-- The line item of bookingUnpaid: two widgets at 50.00. -/
def itemWidget : BookingItem :=
  { id := 1, tenant := 1, booking := 3, product := some 7, product_name := "Widget",
    product_sku := "W7", variant_name := "", unit_price := 50, quantity := 2,
    line_total := 100, product_image := "" }

/-- Store state right before the checkout.session.completed webhook
arrives for booking 3. -/
def dbReplay : Db :=
  { products := [widget], bookings := [bookingUnpaid], booking_items := [itemWidget],
    emails_sent := 0 }

/-- The checkout.session.completed event for booking 3. -/
def sessReplay : StripeSession := { metadata_booking_id := some 3, payment_intent := "pi_1" }

/-- Store after the webhook is delivered once. -/
def dbReplay1 : Db := handle_checkout_session_completed dbReplay sessReplay 100

/-- Store after the identical event is replayed. -/
def dbReplay2 : Db := handle_checkout_session_completed dbReplay1 sessReplay 200

/-- A booking that has already been paid, with its payment-intent id
recorded. -/
def paidBooking : Booking :=
  { bookingUnpaid with status := "PAID", stripe_payment_intent_id := "pi_9", paid_at := some 5 }

/-- Store holding the paid booking. -/
def dbPaid : Db := { dbReplay with bookings := [paidBooking] }

/-! Claim theorems. -/

/-- Claim C9: for every BookingItem, after every save the stored
line_total equals unit_price times quantity, recomputed from those two
fields alone — the caller-supplied line_total (arbitrary in it) is
discarded, and the price and quantity fields are untouched. -/
theorem c9_line_total_recomputed_on_save (it : BookingItem) :
    (bookingItemSave it).line_total = it.unit_price * (it.quantity : ℚ) ∧
    (bookingItemSave it).unit_price = it.unit_price ∧
    (bookingItemSave it).quantity = it.quantity :=
  ⟨rfl, rfl, rfl⟩

/-- Claim C2, failing input: delivering the checkout.session.completed
event for booking 3 twice. The first delivery marks the booking PAID and
decrements stock 10 to 8; the replay, instead of being a no-op, decrements
stock again to 6, dispatches a second confirmation email, and overwrites
paid_at — the handler never checks whether the booking is already PAID. -/
theorem c2_replay_decrements_stock_twice :
    dbReplay1.products.map Product.stock = [8] ∧
    dbReplay1.bookings.map Booking.status = ["PAID"] ∧
    dbReplay1.emails_sent = 1 ∧
    dbReplay2.products.map Product.stock = [6] ∧
    dbReplay2.emails_sent = 2 ∧
    dbReplay1.bookings.map Booking.paid_at = [some 100] ∧
    dbReplay2.bookings.map Booking.paid_at = [some 200] := by
  decide

/-- Claim C5, failing input: a payment_intent.payment_failed event whose
id matches the stored intent of a booking that is already PAID.
mark_as_failed carries no terminal-state guard, so the reconciler flips
the PAID booking to FAILED. -/
theorem c5_failed_event_modifies_paid_booking :
    dbPaid.bookings.map Booking.status = ["PAID"] ∧
    (handle_payment_failed dbPaid ⟨"pi_9"⟩).bookings.map Booking.status = ["FAILED"] := by
  decide

/-- Claim C7, failing input: a request to an exempt path whose downstream
handler raises. The exempt branch calls the handler outside any
try/finally, so the exception propagates with the thread-local request
(and the tenant attribute set to None) still in place, visible to the
next request on the same worker; clear_thread_locals would have left both
attributes deleted. -/
theorem c7_exempt_path_exception_skips_cleanup :
    (tenantMiddlewareCall [] true handlerRaises stEmpty reqHealth).fst = .raised ∧
    (tenantMiddlewareCall [] true handlerRaises stEmpty reqHealth).snd.locals =
      ⟨some none, some reqHealth⟩ ∧
    (⟨some none, some reqHealth⟩ : ThreadLocals) ≠ clear_thread_locals ⟨some none, some reqHealth⟩ := by
  decide

/-- Claim C1, counterexample: the inactive tenant acme with domain
acme.example.com, an empty cache, and a request on that host. Every
lookup of the resolver filters on is_active, so the inactive tenant is
never resolved via the host match: the gate answers 403 tenant_not_found,
not the 403 tenant_inactive the claim describes for this scenario. -/
theorem c1_counterexample_inactive_host_not_found :
    (tenantMiddlewareCall [acmeT] true handlerOk stEmpty reqAcme).fst =
      .response ⟨403, some "tenant_not_found", []⟩ ∧
    (tenantMiddlewareCall [acmeT] true handlerOk stEmpty reqAcme).fst ≠
      .response ⟨403, some "tenant_inactive", []⟩ := by
  decide

/-- Claim C6, counterexample: a cart of two units of a 125.00 product,
whose subtotal is exactly the 250 threshold. The code waives the flat fee
only for subtotal strictly greater than 250, so this order is stored with
shipping_cost 25.00 and total 275.00 — not the 0.00 shipping the claim
asserts for subtotal greater than or equal to 250. -/
theorem c6_counterexample_subtotal_exactly_250 :
    (create_checkout db250 (some t1) pay250 0 (.success "cs" "u") none).snd.bookings.map
        (fun b => (b.subtotal, b.shipping_cost, b.total)) = [(250, 25, 275)] ∧
    (create_checkout db250 (some t1) pay250 0 (.success "cs" "u") none).snd.bookings.map
        (fun b => b.shipping_cost) ≠ [0] := by
  norm_num [create_checkout, serializerValid, validateItems, productGet, final_price,
    db250, db100, t1, pay250, pay100, p125, widget, nextBookingId, nextItemId, bookingItemSave]

/-- Claim C1 (amended): the gate answers 403 tenant_inactive — distinct
from tenant_not_found — exactly when the resolver hands it a tenant
object whose is_active flag is false. Because every fresh lookup filters
on is_active, such an object can only come out of a pre-existing cache
entry holding an inactive snapshot; an inactive tenant resolved fresh via
exact host/domain match is filtered out at lookup and surfaces as 403
tenant_not_found instead (see the counterexample). -/
theorem c1_resolved_inactive_tenant_gets_tenant_inactive
    (db : Directory) (debugMode : Bool)
    (handler : Request → Option Tenant → DownstreamResult)
    (st : MwState) (req : Request) (t : Tenant) (m : Option String) (c1 : Cache)
    (hex : isExemptPath req.path = false)
    (hrl : req.ratelimited = false)
    (hres : resolveTenant db st.cache req = ((some t, m), c1))
    (hina : t.is_active = false) :
    (tenantMiddlewareCall db debugMode handler st req).fst =
      .response ⟨403, some "tenant_inactive", []⟩ ∧
    (tenantMiddlewareCall db debugMode handler st req).fst ≠
      .response ⟨403, some "tenant_not_found", []⟩ := by
  have h : (tenantMiddlewareCall db debugMode handler st req).fst =
      .response ⟨403, some "tenant_inactive", []⟩ := by
    simp only [tenantMiddlewareCall, hex, hrl, hres, hina, Bool.false_eq_true, if_false,
      Bool.not_false, if_true]
  refine ⟨h, ?_⟩
  rw [h]
  decide

/-- Claim C1, witness: a worker whose cache still holds the stale acme
snapshot under the domain key; the request on acme.example.com then
resolves to the inactive object and the gate answers 403 tenant_inactive. -/
theorem c1_witness :
    (tenantMiddlewareCall [acmeT] true handlerOk stStale reqAcme).fst =
      .response ⟨403, some "tenant_inactive", []⟩ :=
  (c1_resolved_inactive_tenant_gets_tenant_inactive [acmeT] true handlerOk stStale reqAcme
    acmeT (some "domain") stStale.cache (by decide) rfl (by decide) rfl).1

/-- Claim C8: resolution tries the bearer token first and short-circuits
— whenever the JWT lookup yields a tenant, that tenant (with method jwt)
is the resolution result, whatever the X-Tenant header and host say — and
a token whose decoding fails (expired, malformed, bad signature: the
invalid outcome) or whose Authorization value is not a Bearer token is
treated exactly as an absent Authorization header, falling through to the
next method. -/
theorem c8_resolution_precedence (db : Directory) (c : Cache) :
    (∀ req tok t m c1, req.authorization = some tok →
       getTenantFromJwt db c tok = ((some t, m), c1) →
       resolveTenant db c req = ((some t, m), c1)) ∧
    (∀ req, req.authorization = some .invalid →
       resolveTenant db c req = resolveTenant db c { req with authorization := none }) ∧
    (∀ req, req.authorization = some .notBearer →
       resolveTenant db c req = resolveTenant db c { req with authorization := none }) := by
  refine ⟨?_, ?_, ?_⟩
  · intro req tok t m c1 hauth hjwt
    simp only [resolveTenant, hauth, hjwt]
  · intro req hauth
    simp only [resolveTenant, hauth, getTenantFromJwt]
  · intro req hauth
    simp only [resolveTenant, hauth, getTenantFromJwt]

/-- Claim C8, witness: a request carrying a valid token for tokT and a
conflicting X-Tenant header naming hdrT resolves to tokT via jwt; the
same request with an invalid token resolves exactly as with no
Authorization header at all. -/
theorem c8_witness :
    resolveTenant [hdrT, tokT] [] reqTokHdr =
      ((some tokT, some "jwt"), [("tenant:jwt:tok", CacheVal.hit tokT)]) ∧
    resolveTenant [hdrT, tokT] [] { reqTokHdr with authorization := some .invalid } =
      resolveTenant [hdrT, tokT] [] { reqTokHdr with authorization := none } :=
  ⟨(c8_resolution_precedence [hdrT, tokT] []).1 reqTokHdr (.valid (some "tok")) tokT
      (some "jwt") [("tenant:jwt:tok", CacheVal.hit tokT)] rfl (by decide),
   (c8_resolution_precedence [hdrT, tokT] []).2.1
      { reqTokHdr with authorization := some .invalid } rfl⟩

/-- Claim C4: operations under a request bound to tenant T touch only
records of T — the booking queryset contains only bookings whose tenant
reference is T and is empty when no tenant is bound; a checkout product
lookup only ever returns a product whose tenant reference is T; and every
booking present after a checkout either pre-existed or carries T as its
tenant reference. -/
theorem c4_tenant_isolation (db : Db) :
    (∀ tenant emailParam b, b ∈ bookingGetQueryset db (some tenant) emailParam →
       b.tenant = tenant.id) ∧
    (∀ emailParam, bookingGetQueryset db none emailParam = []) ∧
    (∀ tenant pid p, productGet db tenant pid = some p → p.tenant = tenant.id) ∧
    (∀ tenant payload now gw ip b,
       b ∈ (create_checkout db (some tenant) payload now gw ip).snd.bookings →
       b ∈ db.bookings ∨ b.tenant = tenant.id) := by
  refine ⟨?_, ?_, ?_, ?_⟩
  · intro tenant emailParam b hb
    unfold bookingGetQueryset at hb
    have hb' : b ∈ db.bookings.filter (fun x => x.tenant == tenant.id) := by
      cases emailParam with
      | none => exact hb
      | some e =>
        simp only at hb
        split at hb
        · exact hb
        · exact (List.mem_filter.mp hb).1
    simpa using (List.mem_filter.mp hb').2
  · intro emailParam
    rfl
  · intro tenant pid p hp
    unfold productGet at hp
    have hpred := List.find?_some hp
    simp only [Bool.and_eq_true, beq_iff_eq] at hpred
    exact hpred.1.2
  · intro tenant payload now gw ip b hb
    unfold create_checkout at hb
    by_cases hv : serializerValid payload = true
    · simp only [hv, Bool.not_true, Bool.false_eq_true, if_false] at hb
      cases hval : validateItems db tenant now payload.items with
      | error e =>
        rw [hval] at hb
        cases e with
        | productNotFound pid => exact Or.inl hb
        | insufficientStock nm => exact Or.inl hb
      | ok pr =>
        obtain ⟨items_data, subtotal⟩ := pr
        rw [hval] at hb
        cases gw with
        | success sid url =>
          simp only [List.mem_append, List.mem_singleton] at hb
          rcases hb with hb | rfl
          · exact Or.inl hb
          · exact Or.inr rfl
        | stripeError => exact Or.inl hb
        | otherError => exact Or.inl hb
    · simp only [Bool.not_eq_true] at hv
      rw [hv] at hb
      exact Or.inl hb

/-- Claim C4, witness: the concrete product lookup for product 7 under
tenant t1 returns widget, whose tenant reference is t1; the paid booking
of dbPaid appears in the t1 queryset and carries t1; and binding no
tenant yields the empty queryset. -/
theorem c4_witness :
    widget.tenant = t1.id ∧ paidBooking.tenant = t1.id ∧
    bookingGetQueryset dbPaid none (some "a@b.c") = [] :=
  ⟨(c4_tenant_isolation db100).2.2.1 t1 7 widget (by decide),
   (c4_tenant_isolation dbPaid).1 t1 none paidBooking (by decide),
   (c4_tenant_isolation dbPaid).2.1 (some "a@b.c")⟩

/-- Claim C3: createCheckout is all-or-nothing. Every outcome either
leaves the store exactly as it was or is the 201 created response of a
successful gateway session; and when validation passes but the gateway
raises a StripeError, the response is the generic payment-processing 500
with the store untouched — the gateway failure message is fixed and
carries no gateway internals. -/
theorem c3_checkout_all_or_nothing (db : Db) (tOpt : Option Tenant) (payload : CheckoutData)
    (now : Nat) (gw : GatewayOutcome) (ip : Option String) :
    ((create_checkout db tOpt payload now gw ip).snd = db ∨
      ∃ sid url, gw = .success sid url ∧
        (create_checkout db tOpt payload now gw ip).fst = .created url (nextBookingId db) sid) ∧
    (∀ tenant items_data subtotal,
      tOpt = some tenant →
      serializerValid payload = true →
      validateItems db tenant now payload.items = .ok (items_data, subtotal) →
      gw = .stripeError →
      create_checkout db tOpt payload now gw ip =
        (.err 500 "Payment processing error. Please try again.", db)) := by
  constructor
  · unfold create_checkout
    cases tOpt with
    | none => exact Or.inl rfl
    | some tenant =>
      by_cases hv : serializerValid payload = true
      · simp only [hv, Bool.not_true, Bool.false_eq_true, if_false]
        cases hval : validateItems db tenant now payload.items with
        | error e =>
          cases e with
          | productNotFound pid => exact Or.inl rfl
          | insufficientStock nm => exact Or.inl rfl
        | ok pr =>
          obtain ⟨items_data, subtotal⟩ := pr
          cases gw with
          | success sid url => exact Or.inr ⟨sid, url, rfl, rfl⟩
          | stripeError => exact Or.inl rfl
          | otherError => exact Or.inl rfl
      · simp only [Bool.not_eq_true] at hv
        exact Or.inl (by rw [hv]; rfl)
  · intro tenant items_data subtotal ht hv hval hgw
    subst ht
    subst hgw
    unfold create_checkout
    simp only [hv, Bool.not_true, Bool.false_eq_true, if_false, hval]

/-- Claim C3, witness: the concrete valid cart of two widgets with the
gateway raising a StripeError yields the generic payment-processing 500
and leaves the store unchanged. -/
theorem c3_witness :
    create_checkout db100 (some t1) pay100 0 .stripeError none =
      (.err 500 "Payment processing error. Please try again.", db100) :=
  (c3_checkout_all_or_nothing db100 (some t1) pay100 0 .stripeError none).2 t1
    scenItemsData 100 rfl (by decide)
    (by norm_num [validateItems, productGet, final_price, db100, t1, pay100, widget,
      scenItemsData])
    rfl

/-- Claim C6 (amended): shipping is waived only for subtotal strictly
greater than 250 — at subtotal 250 or below the flat fee 25.00 applies
(see the counterexample at exactly 250) — and the persisted order stores
subtotal, shipping_cost = (if subtotal > 250 then 0 else 25),
total = subtotal + shipping_cost, in status UNPAID. -/
theorem c6_shipping_strict_threshold (db : Db) (tenant : Tenant) (payload : CheckoutData)
    (now : Nat) (ip : Option String) (sid url : String)
    (items_data : List ItemData) (subtotal : ℚ)
    (hv : serializerValid payload = true)
    (hval : validateItems db tenant now payload.items = .ok (items_data, subtotal)) :
    (create_checkout db (some tenant) payload now (.success sid url) ip).snd.bookings.map
        (fun b => (b.subtotal, b.shipping_cost, b.total, b.status)) =
      db.bookings.map (fun b => (b.subtotal, b.shipping_cost, b.total, b.status)) ++
        [(subtotal, if subtotal > 250 then (0:ℚ) else 25,
          subtotal + (if subtotal > 250 then (0:ℚ) else 25), "UNPAID")] := by
  unfold create_checkout
  simp only [hv, Bool.not_true, Bool.false_eq_true, if_false, hval, List.map_append]
  rfl

/-- Claim C6, witness: the spec scenario — two units of product 7 at
50.00 — persists subtotal 100.00, shipping 25.00 (below the threshold),
total 125.00, status UNPAID. -/
theorem c6_witness_spec_scenario :
    (create_checkout db100 (some t1) pay100 0 (.success "cs" "u") none).snd.bookings.map
        (fun b => (b.subtotal, b.shipping_cost, b.total, b.status)) =
      [((100:ℚ), (25:ℚ), (125:ℚ), "UNPAID")] := by
  have h := c6_shipping_strict_threshold db100 t1 pay100 0 none "cs" "u"
    scenItemsData 100 (by decide)
    (by norm_num [validateItems, productGet, final_price, db100, t1, pay100, widget,
      scenItemsData])
  norm_num [db100] at h
  exact h

/-- Helper: a prefix of the cart that validates successfully does not mask
a later validation error — the loop propagates the first error of the
remaining items. -/
theorem validateItems_append_error (db : Db) (tenant : Tenant) (now : Nat)
    (pre rest : List CartItem) (ds : List ItemData) (sub : ℚ) (e : CheckoutErr)
    (hpre : validateItems db tenant now pre = .ok (ds, sub))
    (hrest : validateItems db tenant now rest = .error e) :
    validateItems db tenant now (pre ++ rest) = .error e := by
  induction pre generalizing ds sub with
  | nil => simpa using hrest
  | cons a l ih =>
    rw [List.cons_append]
    rw [validateItems] at hpre ⊢
    cases hpg : productGet db tenant a.product_id with
    | none =>
      rw [hpg] at hpre
      simp at hpre
    | some product =>
      rw [hpg] at hpre
      simp only at hpre ⊢
      by_cases hts : (product.track_inventory && decide (product.stock < a.quantity)) = true
      · rw [if_pos hts] at hpre
        simp at hpre
      · rw [if_neg hts] at hpre ⊢
        cases hl : validateItems db tenant now l with
        | error e2 =>
          rw [hl] at hpre
          simp at hpre
        | ok pr =>
          obtain ⟨ds2, sub2⟩ := pr
          rw [ih ds2 sub2 hl]

/-- Claim C10: when the validation loop reaches a cart item whose product
(found for the tenant and active) tracks inventory and has stock below
the requested quantity, the whole checkout is rejected with the
insufficient-stock 400 and the store is untouched. The statement carries
no hypothesis on allow_backorders: the flag of the product is arbitrary,
so the backorder capability of the model is never consulted. -/
theorem c10_backorders_ignored_at_checkout (db : Db) (tenant : Tenant)
    (payload : CheckoutData) (now : Nat) (gw : GatewayOutcome) (ip : Option String)
    (pre post : List CartItem) (item : CartItem) (ds : List ItemData) (sub : ℚ) (p : Product)
    (hitems : payload.items = pre ++ item :: post)
    (hv : serializerValid payload = true)
    (hpre : validateItems db tenant now pre = .ok (ds, sub))
    (hp : productGet db tenant item.product_id = some p)
    (htrack : p.track_inventory = true)
    (hstock : p.stock < item.quantity) :
    create_checkout db (some tenant) payload now gw ip =
      (.err 400 ("Insufficient stock for " ++ p.name), db) := by
  have hrest : validateItems db tenant now (item :: post) =
      .error (.insufficientStock p.name) := by
    rw [validateItems, hp]
    simp [htrack, hstock]
  have hall := validateItems_append_error db tenant now pre (item :: post) ds sub
    (.insufficientStock p.name) hpre hrest
  rw [← hitems] at hall
  unfold create_checkout
  simp only [hv, Bool.not_true, Bool.false_eq_true, if_false, hall]

/-- Claim C10, witness: a cart asking for two units of the stock-1
product that allows backorders (and whose can_purchase is true) is
rejected with the insufficient-stock 400, the store unchanged, even with
a gateway that would succeed. -/
theorem c10_witness :
    create_checkout dbBackorder (some t1) payBackorder 0 (.success "cs" "u") none =
      (.err 400 "Insufficient stock for Widget", dbBackorder) ∧
    pBackorder.allow_backorders = true ∧
    can_purchase pBackorder = true :=
  ⟨c10_backorders_ignored_at_checkout dbBackorder t1 payBackorder 0 (.success "cs" "u") none
    [] [] ⟨11, 2, ""⟩ [] 0 pBackorder rfl (by decide) rfl rfl rfl (by decide),
   rfl, by decide⟩

end Backend
